import Mathlib

/-!
Shallow embedding of the forex-event-analyzer market-data pipeline
(src/app/services/chart_service.py together with src/app/core/config.py,
src/app/core/exceptions.py and src/app/api/v1/charts.py).

Modelling conventions:
* pandas DataFrames become lists of rows (`RawSeries`); a cell that is
  missing or NaN is `none`, a real float is `some q` with `q : ℚ`.
* Python `datetime` values become the `DT` structure; comparison and
  subtraction go through `DT.toMin` (minutes since 0001-01-01, the same
  arithmetic Python `datetime` subtraction performs via `toordinal`).
* Exceptions become the `PyError` sum type and fallible functions return
  `Except PyError _`.
* The external data source (`yfinance.download`) is a parameter
  `source : String → FetchOutcome`; the external chart renderer
  (`lightweight_charts` + `to_csv`) is a parameter
  `renderEffect : RawSeries → Except Unit Unit`.
* Wall-clock reads (`time.time()` differences) are passed in as the
  `Durations` parameter; the code only stores them in the metrics block.
-/

/-- Settings from src/app/core/config.py, restricted to the fields the
pipeline core reads. -/
structure Settings where
  max_days_lookback : Nat := 30
  max_data_points : Nat := 10000
  chart_server_port : Nat := 5500
  yfinance_timeout : Nat := 30
deriving Repr, DecidableEq

/-- The defaults of the pydantic `Settings` class. -/
def defaultSettings : Settings := {}

/-- One row of the tabular market-data series: the timestamp index plus the
four OHLC columns; `none` models a missing/NaN cell. -/
structure Row where
  time : Nat
  open_ : Option ℚ
  high : Option ℚ
  low : Option ℚ
  close : Option ℚ
deriving Repr, DecidableEq

/-- A pandas DataFrame of OHLC data, as a list of rows in index order. -/
abbrev RawSeries := List Row

/-- A Python `datetime` as produced by `datetime.strptime` with the formats
the service accepts (year, month, day, hour, minute; seconds are always 0). -/
structure DT where
  year : Nat
  month : Nat
  day : Nat
  hour : Nat
  minute : Nat
deriving Repr, DecidableEq

/-- Diagnostic details attached to the DataNotFoundError raised by
fetch exhaustion (the dict literal at src/app/services/chart_service.py;
the code stores `start_dt.isoformat()` / `end_dt.isoformat()`, modelled here
by the datetimes themselves). -/
structure FetchDetails where
  pairs : String
  candidates_tried : List String
  start_date : DT
  end_date : DT
  interval : String
deriving Repr, DecidableEq

/-- Diagnostic details attached to ChartGenerationError (the dict literal in
generate_chart). -/
structure ReqDetails where
  pairs : String
  start_date : String
  end_date : String
  interval : String
deriving Repr, DecidableEq

/-- The exception kinds of src/app/core/exceptions.py, plus `valueError` and
`otherError` for plain Python exceptions that are not ForexChartException. -/
inductive PyError where
  | invalidDateRange (msg : String)
  | invalidCurrencyPair (msg : String)
  | dataNotFound (msg : String) (details : Option FetchDetails)
  | chartGeneration (msg : String) (details : ReqDetails)
  | valueError
  | otherError
deriving Repr, DecidableEq

/-- str(e): the message surfaced when an exception is interpolated into the
wrapping ChartGenerationError message. -/
def PyError.msg : PyError → String
  | .invalidDateRange m => m
  | .invalidCurrencyPair m => m
  | .dataNotFound m _ => m
  | .chartGeneration m _ => m
  | .valueError => "ValueError"
  | .otherError => "Exception"

def isInvalidDateRangeErr {α : Type} : Except PyError α → Bool
  | .error (.invalidDateRange _) => true
  | _ => false

def isDataNotFoundErr {α : Type} : Except PyError α → Bool
  | .error (.dataNotFound _ _) => true
  | _ => false

def isChartGenerationErr {α : Type} : Except PyError α → Bool
  | .error (.chartGeneration _ _) => true
  | _ => false

/-! ## String helpers for the currency pair

`pairs.upper().replace(' ', '')` and `pair_clean.split('/')` from
_fetch_market_data.  Python str.split on a separator character splits at
every occurrence; `splitChar` mirrors that on the character list. -/

def splitChar (c : Char) : List Char → List (List Char)
  | [] => [[]]
  | x :: xs =>
    if x = c then [] :: splitChar c xs
    else
      match splitChar c xs with
      | p :: ps => (x :: p) :: ps
      | [] => [[x]]

/-- `pairs.upper().replace(' ', '')` (ASCII upper-casing; currency pairs are
ASCII). -/
def pairClean (pairs : String) : String :=
  String.mk ((pairs.data.map Char.toUpper).filter (fun c => c ≠ ' '))

/-- `pair_clean.split('/')` as a list of strings. -/
def cleanSplit (pairs : String) : List String :=
  (splitChar '/' (pairClean pairs).data).map String.mk

/-- `s.replace('/', '')`. -/
def stripSlashes (s : String) : String :=
  String.mk (s.data.filter (fun c => c ≠ '/'))

/-! ## datetime.strptime for the three accepted formats

The service tries, in order, the formats
"%Y-%m-%d %I:%M %p", "%Y-%m-%d %H:%M", "%Y-%m-%d %I:%M%p".
Python strptime compiles each format to a regex (IGNORECASE) whose field
patterns and alternation order are reproduced below; after a full match the
datetime constructor validates the year range and the day against the month
length.  Each field parser returns the possible (value, rest) splits in the
regex alternation order, and the format parser takes the first alternative
chain that consumes the whole string, which models regex backtracking. -/

/-- Python regex \s (ASCII whitespace as matched under str patterns). -/
def isPySpace (c : Char) : Bool :=
  c = ' ' || c = '\t' || c = '\n' || c = '\r' || c = '\x0b' || c = '\x0c'

def digitVal (c : Char) : Option Nat :=
  if c.isDigit then some (c.toNat - 48) else none

/-- %Y: exactly four digits. -/
def pYear : List Char → List (Nat × List Char)
  | a :: b :: c :: d :: rest =>
    match digitVal a, digitVal b, digitVal c, digitVal d with
    | some x, some y, some z, some w => [(x * 1000 + y * 100 + z * 10 + w, rest)]
    | _, _, _, _ => []
  | _ => []

/-- %m and %I: regex "1[0-2]|0[1-9]|[1-9]", alternatives in that order. -/
def pOneTo12 : List Char → List (Nat × List Char)
  | [] => []
  | c1 :: rest1 =>
    let alt3 :=
      match digitVal c1 with
      | some v => if 1 ≤ v then [(v, rest1)] else []
      | none => []
    match rest1 with
    | [] => alt3
    | c2 :: rest2 =>
      let alt1 :=
        match digitVal c1, digitVal c2 with
        | some 1, some v2 => if v2 ≤ 2 then [(10 + v2, rest2)] else []
        | _, _ => []
      let alt2 :=
        match digitVal c1, digitVal c2 with
        | some 0, some v2 => if 1 ≤ v2 then [(v2, rest2)] else []
        | _, _ => []
      alt1 ++ alt2 ++ alt3

/-- %d: regex "3[01]|[12]\d|0[1-9]|[1-9]". -/
def pDay : List Char → List (Nat × List Char)
  | [] => []
  | c1 :: rest1 =>
    let alt4 :=
      match digitVal c1 with
      | some v => if 1 ≤ v then [(v, rest1)] else []
      | none => []
    match rest1 with
    | [] => alt4
    | c2 :: rest2 =>
      let alt1 :=
        match digitVal c1, digitVal c2 with
        | some 3, some v2 => if v2 ≤ 1 then [(30 + v2, rest2)] else []
        | _, _ => []
      let alt2 :=
        match digitVal c1, digitVal c2 with
        | some v1, some v2 => if 1 ≤ v1 ∧ v1 ≤ 2 then [(10 * v1 + v2, rest2)] else []
        | _, _ => []
      let alt3 :=
        match digitVal c1, digitVal c2 with
        | some 0, some v2 => if 1 ≤ v2 then [(v2, rest2)] else []
        | _, _ => []
      alt1 ++ alt2 ++ alt3 ++ alt4

/-- %H: regex "2[0-3]|[0-1]\d|\d". -/
def pHour24 : List Char → List (Nat × List Char)
  | [] => []
  | c1 :: rest1 =>
    let alt3 :=
      match digitVal c1 with
      | some v => [(v, rest1)]
      | none => []
    match rest1 with
    | [] => alt3
    | c2 :: rest2 =>
      let alt1 :=
        match digitVal c1, digitVal c2 with
        | some 2, some v2 => if v2 ≤ 3 then [(20 + v2, rest2)] else []
        | _, _ => []
      let alt2 :=
        match digitVal c1, digitVal c2 with
        | some v1, some v2 => if v1 ≤ 1 then [(10 * v1 + v2, rest2)] else []
        | _, _ => []
      alt1 ++ alt2 ++ alt3

/-- %M: regex "[0-5]\d|\d". -/
def pMinute : List Char → List (Nat × List Char)
  | [] => []
  | c1 :: rest1 =>
    let alt2 :=
      match digitVal c1 with
      | some v => [(v, rest1)]
      | none => []
    match rest1 with
    | [] => alt2
    | c2 :: rest2 =>
      let alt1 :=
        match digitVal c1, digitVal c2 with
        | some v1, some v2 => if v1 ≤ 5 then [(10 * v1 + v2, rest2)] else []
        | _, _ => []
      alt1 ++ alt2

/-- %p: regex "am|pm" under IGNORECASE; 0 = AM, 1 = PM. -/
def pAmPm : List Char → List (Nat × List Char)
  | c1 :: c2 :: rest =>
    if (c1 = 'a' || c1 = 'A') && (c2 = 'm' || c2 = 'M') then [(0, rest)]
    else if (c1 = 'p' || c1 = 'P') && (c2 = 'm' || c2 = 'M') then [(1, rest)]
    else []
  | _ => []

/-- A literal character of the format (the "-" and ":" separators). -/
def pLit (c : Char) : List Char → Option (List Char)
  | x :: rest => if x = c then some rest else none
  | [] => none

/-- A whitespace run in the format becomes \s+; the returned rests are in
greedy order (longest consumed run first), matching regex backtracking. -/
def pWS : List Char → List (List Char)
  | [] => []
  | c :: rest =>
    if isPySpace c then pWS rest ++ [rest] else []

def isLeap (y : Nat) : Bool :=
  y % 4 = 0 && (y % 100 ≠ 0 || y % 400 = 0)

def daysInMonth (y m : Nat) : Nat :=
  if m = 2 then (if isLeap y then 29 else 28)
  else if m = 4 ∨ m = 6 ∨ m = 9 ∨ m = 11 then 30
  else 31

/-- The datetime(...) constructor applied after a successful regex match:
MINYEAR ≤ year ≤ MAXYEAR and day within the month (the field regexes already
bound month 1..12, day 1..31, hour and minute). -/
def mkDT (y mo d h mi : Nat) : Option DT :=
  if 1 ≤ y ∧ d ≤ daysInMonth y mo then some ⟨y, mo, d, h, mi⟩ else none

/-- strptime hour conversion for %I with %p: AM maps 12 to 0, PM adds 12
except to 12 itself. -/
def hourFrom12 (i ampm : Nat) : Nat :=
  if ampm = 0 then (if i = 12 then 0 else i)
  else (if i = 12 then 12 else i + 12)

/-- Regex match for "%Y-%m-%d %I:%M %p" (must consume the whole string:
strptime rejects unconverted trailing data). -/
def matchF1 (l : List Char) : Option (Nat × Nat × Nat × Nat × Nat) :=
  (pYear l).findSome? fun (y, l1) =>
  (pLit '-' l1).bind fun l2 =>
  (pOneTo12 l2).findSome? fun (mo, l3) =>
  (pLit '-' l3).bind fun l4 =>
  (pDay l4).findSome? fun (d, l5) =>
  (pWS l5).findSome? fun l6 =>
  (pOneTo12 l6).findSome? fun (i, l7) =>
  (pLit ':' l7).bind fun l8 =>
  (pMinute l8).findSome? fun (mi, l9) =>
  (pWS l9).findSome? fun l10 =>
  (pAmPm l10).findSome? fun (ap, l11) =>
  if l11 = [] then some (y, mo, d, hourFrom12 i ap, mi) else none

/-- Regex match for "%Y-%m-%d %H:%M". -/
def matchF2 (l : List Char) : Option (Nat × Nat × Nat × Nat × Nat) :=
  (pYear l).findSome? fun (y, l1) =>
  (pLit '-' l1).bind fun l2 =>
  (pOneTo12 l2).findSome? fun (mo, l3) =>
  (pLit '-' l3).bind fun l4 =>
  (pDay l4).findSome? fun (d, l5) =>
  (pWS l5).findSome? fun l6 =>
  (pHour24 l6).findSome? fun (h, l7) =>
  (pLit ':' l7).bind fun l8 =>
  (pMinute l8).findSome? fun (mi, l9) =>
  if l9 = [] then some (y, mo, d, h, mi) else none

/-- Regex match for "%Y-%m-%d %I:%M%p". -/
def matchF3 (l : List Char) : Option (Nat × Nat × Nat × Nat × Nat) :=
  (pYear l).findSome? fun (y, l1) =>
  (pLit '-' l1).bind fun l2 =>
  (pOneTo12 l2).findSome? fun (mo, l3) =>
  (pLit '-' l3).bind fun l4 =>
  (pDay l4).findSome? fun (d, l5) =>
  (pWS l5).findSome? fun l6 =>
  (pOneTo12 l6).findSome? fun (i, l7) =>
  (pLit ':' l7).bind fun l8 =>
  (pMinute l8).findSome? fun (mi, l9) =>
  (pAmPm l9).findSome? fun (ap, l10) =>
  if l10 = [] then some (y, mo, d, hourFrom12 i ap, mi) else none

def applyFormat (m : List Char → Option (Nat × Nat × Nat × Nat × Nat))
    (l : List Char) : Option DT :=
  (m l).bind fun (y, mo, d, h, mi) => mkDT y mo d h mi

/-- The inner parse_datetime helper of _parse_date_range: try the three
formats in order, first success wins; all failing means the
InvalidDateRangeError "Unable to parse datetime" path. -/
def parse_datetime (s : String) : Option DT :=
  match applyFormat matchF1 s.data with
  | some dt => some dt
  | none =>
    match applyFormat matchF2 s.data with
    | some dt => some dt
    | none => applyFormat matchF3 s.data

/-- Days before January 1 of the given year (datetime.toordinal minus one). -/
def daysBeforeYear (y : Nat) : Nat :=
  365 * (y - 1) + (y - 1) / 4 + (y - 1) / 400 - (y - 1) / 100

def monthOffset : Nat → Nat
  | 1 => 0 | 2 => 31 | 3 => 59 | 4 => 90 | 5 => 120 | 6 => 151
  | 7 => 181 | 8 => 212 | 9 => 243 | 10 => 273 | 11 => 304 | 12 => 334
  | _ => 0

def daysBeforeMonth (y m : Nat) : Nat :=
  monthOffset m + (if 3 ≤ m ∧ isLeap y then 1 else 0)

/-- Minutes since 0001-01-01 00:00.  Python datetime comparison and
subtraction coincide with comparison and subtraction of this value. -/
def DT.toMin (dt : DT) : Nat :=
  (daysBeforeYear dt.year + daysBeforeMonth dt.year dt.month + (dt.day - 1)) * 1440
    + dt.hour * 60 + dt.minute

/-- _parse_date_range of ChartService: parse both strings, require strictly
increasing order, then require the timedelta's whole-day count not to exceed
max_days_lookback ((end - start).days is floor division by one day). -/
def parse_date_range (st : Settings) (start_str end_str : String) :
    Except PyError (DT × DT) :=
  match parse_datetime start_str with
  | none => .error (.invalidDateRange ("Unable to parse datetime: " ++ start_str))
  | some start_dt =>
    match parse_datetime end_str with
    | none => .error (.invalidDateRange ("Unable to parse datetime: " ++ end_str))
    | some end_dt =>
      if end_dt.toMin ≤ start_dt.toMin then
        .error (.invalidDateRange "Start date must be before end date")
      else if st.max_days_lookback < (end_dt.toMin - start_dt.toMin) / 1440 then
        .error (.invalidDateRange
          ("Date range too large. Maximum allowed: "
            ++ toString st.max_days_lookback ++ " days"))
      else
        .ok (start_dt, end_dt)

/-- The candidate ticker list built in _fetch_market_data once base and quote
have been unpacked; empty when the unpack would fail (that path raises
ValueError before the list is built). -/
def symbolCandidates (pairs : String) : List String :=
  match cleanSplit pairs with
  | [base, quote] =>
      [stripSlashes (pairClean pairs) ++ "=X",
       base ++ quote ++ "=X",
       quote ++ base ++ "=X",
       quote ++ "=X"]
  | _ => []

/-! ## _fetch_market_data -/

/-- The outcome of one yf.download call: an exception, a None / non-DataFrame
result, or a DataFrame (possibly empty). -/
inductive FetchOutcome where
  | err
  | noData
  | series (s : RawSeries)
deriving Repr, DecidableEq

/-- The usability test of the loop body: the result is adopted exactly when it
is a DataFrame and not empty; exceptions and None results fall through. -/
def usable : FetchOutcome → Option RawSeries
  | .series s => if s.isEmpty then none else some s
  | _ => none

/-- The candidate loop of _fetch_market_data: try each symbol in order, break
on the first usable result.  The first component records the symbols the data
source was actually invoked on, in invocation order. -/
def fetchLoop (source : String → FetchOutcome) :
    List String → List String × Option RawSeries
  | [] => ([], none)
  | sym :: rest =>
    match usable (source sym) with
    | some s => ([sym], some s)
    | none =>
      let r := fetchLoop source rest
      (sym :: r.1, r.2)

/-- pandas df.index.duplicated(keep='first') on the timestamp list: mark an
entry when its value already occurred earlier. -/
def dupMask (seen : List Nat) : List Nat → List Bool
  | [] => []
  | t :: ts => decide (t ∈ seen) :: dupMask (t :: seen) ts

/-- df[~df.index.duplicated(keep='first')]: drop the rows the mask marks. -/
def dedupKeepFirst (w : RawSeries) : RawSeries :=
  (w.zip (dupMask [] (w.map Row.time))).filterMap
    (fun p => if p.2 then none else some p.1)

/-- df.tail(n): the last n rows. -/
def pdTail (w : RawSeries) (n : Nat) : RawSeries :=
  w.drop (w.length - n)

/-- The post-loop processing of the winning series: dedup timestamps keeping
the first occurrence, then truncate to the most recent max_data_points rows
when the count exceeds the maximum. -/
def postProcess (st : Settings) (w : RawSeries) : RawSeries :=
  let d := dedupKeepFirst w
  if st.max_data_points < d.length then pdTail d st.max_data_points else d

/-- _fetch_market_data of ChartService.  The first component is the list of
symbols the data source was invoked on.  pair unpack failure
(base, quote = split) is Python ValueError. -/
def fetch_market_data (st : Settings) (source : String → FetchOutcome)
    (pairs : String) (start_dt end_dt : DT) (interval : String) :
    List String × Except PyError RawSeries :=
  match cleanSplit pairs with
  | [_, _] =>
    let candidates := symbolCandidates pairs
    let r := fetchLoop source candidates
    match r.2 with
    | none =>
      (r.1, .error (.dataNotFound ("No data found for " ++ pairs)
        (some { pairs := pairs, candidates_tried := candidates,
                start_date := start_dt, end_date := end_dt,
                interval := interval })))
    | some df => (r.1, .ok (postProcess st df))
  | _ => ([], .error .valueError)

/-! ## _process_chart_data -/

/-- One candle of the response model (src/app/models/responses.py). -/
structure CandleData where
  time : Nat
  open_ : ℚ
  high : ℚ
  low : ℚ
  close : ℚ
deriving Repr, DecidableEq

structure PriceRange where
  min : ℚ
  max : ℚ
deriving Repr, DecidableEq

/-- ChartData of src/app/models/responses.py (start_date/end_date are the
row-index timestamps df.index.min()/max()). -/
structure ChartData where
  pairs : String
  start_date : Nat
  end_date : Nat
  interval : String
  data_points : Nat
  price_range : PriceRange
  candles : List CandleData
deriving Repr, DecidableEq

/-- The per-row check of _process_chart_data: a candle is built only when
none of the four OHLC cells is missing/NaN (safe_float returned None for a
NaN cell). -/
def rowCandle (r : Row) : Option CandleData :=
  match r.open_, r.high, r.low, r.close with
  | some o, some h, some l, some c =>
    some { time := r.time, open_ := o, high := h, low := l, close := c }
  | _, _, _, _ => none

/-- Python min(x :: l) / max(x :: l) as a fold. -/
def foldMin (x : ℚ) (l : List ℚ) : ℚ := l.foldl min x

def foldMax (x : ℚ) (l : List ℚ) : ℚ := l.foldl max x

def foldMinNat (x : Nat) (l : List Nat) : Nat := l.foldl min x

def foldMaxNat (x : Nat) (l : List Nat) : Nat := l.foldl max x

/-- df.index.min() (0 is an unreachable placeholder: the call sites have a
non-empty df). -/
def idxMin (w : RawSeries) : Nat :=
  match w.map Row.time with
  | [] => 0
  | t :: ts => foldMinNat t ts

def idxMax (w : RawSeries) : Nat :=
  match w.map Row.time with
  | [] => 0
  | t :: ts => foldMaxNat t ts

/-- all_prices: the four OHLC values of every candle, in candle order. -/
def allPrices (candles : List CandleData) : List ℚ :=
  candles.flatMap (fun c => [c.open_, c.high, c.low, c.close])

/-- _process_chart_data of ChartService: build candles from the complete
rows, fail with DataNotFoundError (no details dict) when none survives,
otherwise compute the price range over all OHLC values of all candles.
The Python function also receives the requested start/end datetimes but
never reads them (start_date/end_date come from the row index), so they are
omitted here. -/
def process_chart_data (df : RawSeries) (pairs : String)
    (interval : String) : Except PyError ChartData :=
  let candles := df.filterMap rowCandle
  if candles.isEmpty then
    .error (.dataNotFound "No valid data points found after processing" none)
  else
    let prices := allPrices candles
    let price_range : PriceRange :=
      { min := match prices with | [] => 0 | x :: xs => foldMin x xs,
        max := match prices with | [] => 0 | x :: xs => foldMax x xs }
    .ok { pairs := pairs, start_date := idxMin df, end_date := idxMax df,
          interval := interval, data_points := candles.length,
          price_range := price_range, candles := candles }

/-! ## _generate_interactive_chart and generate_chart -/

def pad2 (n : Nat) : String :=
  if n < 10 then "0" ++ toString n else toString n

def pad4 (n : Nat) : String :=
  if n < 10 then "000" ++ toString n
  else if n < 100 then "00" ++ toString n
  else if n < 1000 then "0" ++ toString n
  else toString n

/-- strftime "%Y%m%d_%H%M". -/
def fmtYmdHM (dt : DT) : String :=
  pad4 dt.year ++ pad2 dt.month ++ pad2 dt.day ++ "_" ++ pad2 dt.hour
    ++ pad2 dt.minute

/-- `pairs.replace('/', '_')` used in the CSV file name. -/
def slashToUnderscore (s : String) : String :=
  String.mk (s.data.map (fun c => if c = '/' then '_' else c))

/-- _generate_interactive_chart: the external chart/CSV side effects are the
renderEffect parameter; any exception inside the try block is downgraded to
(None, None). -/
def generate_interactive_chart (renderEffect : RawSeries → Except Unit Unit)
    (st : Settings) (df : RawSeries) (pairs : String)
    (start_dt end_dt : DT) : Option String × Option String :=
  match renderEffect df with
  | .ok _ =>
    let csv_filename :=
      slashToUnderscore pairs ++ "_" ++ fmtYmdHM start_dt ++ "_to_"
        ++ fmtYmdHM end_dt ++ "_chart_data.csv"
    let chart_url := "http://localhost:" ++ toString st.chart_server_port
    (some chart_url, some csv_filename)
  | .error _ => (none, none)

/-- The request model (src/app/models/requests.py), before pydantic
validation; generate_chart reads exactly these four fields. -/
structure ChartRequest where
  pairs : String
  start_date_time : String
  end_date_time : String
  interval : String
deriving Repr, DecidableEq

/-- ChartMetrics of src/app/models/responses.py; durations as rationals. -/
structure ChartMetrics where
  data_fetch_time : ℚ
  chart_generation_time : ℚ
  total_time : ℚ
  data_points_processed : Nat
deriving Repr, DecidableEq

/-- The metadata dict assembled in generate_chart ("metrics" plus the
"settings" sub-dict; the date_range entry keeps the datetimes instead of
their str() rendering). -/
structure RespMetadata where
  metrics : ChartMetrics
  interval : String
  data_points : Nat
  date_range : DT × DT
deriving Repr, DecidableEq

/-- ChartResponse of src/app/models/responses.py. -/
structure ChartResponse where
  success : Bool := true
  message : String
  chart_data : ChartData
  chart_url : Option String
  csv_filename : Option String
  metadata : RespMetadata
deriving Repr, DecidableEq

/-- The wall-clock durations generate_chart measures with time.time(); the
embedding takes them as inputs (fetch_time, chart_gen elapsed, total). -/
structure Durations where
  fetch : ℚ
  render : ℚ
  total : ℚ
deriving Repr, DecidableEq

/-- The try-block body of generate_chart: validate the range, fetch, process,
optionally render (render failure already downgraded to (None, None)), then
assemble metrics and the response.  When generate_interactive is false the
renderer is not called and chart_gen_time is literally 0. -/
def generate_chart_body (st : Settings) (source : String → FetchOutcome)
    (renderEffect : RawSeries → Except Unit Unit) (durs : Durations)
    (request : ChartRequest) (generate_interactive : Bool) :
    Except PyError ChartResponse := do
  let (start_dt, end_dt) ←
    parse_date_range st request.start_date_time request.end_date_time
  let df ←
    (fetch_market_data st source request.pairs start_dt end_dt
      request.interval).2
  let chart_data ← process_chart_data df request.pairs request.interval
  let rendered :=
    if generate_interactive then
      let uc := generate_interactive_chart renderEffect st df request.pairs
        start_dt end_dt
      (uc.1, uc.2, durs.render)
    else
      (none, none, (0 : ℚ))
  let metrics : ChartMetrics :=
    { data_fetch_time := durs.fetch,
      chart_generation_time := rendered.2.2,
      total_time := durs.total,
      data_points_processed := df.length }
  return { message := "Chart created successfully for " ++ request.pairs,
           chart_data := chart_data,
           chart_url := rendered.1,
           csv_filename := rendered.2.1,
           metadata :=
             { metrics := metrics, interval := request.interval,
               data_points := df.length,
               date_range := (start_dt, end_dt) } }

/-- generate_chart of ChartService: the whole body runs under one
`except Exception` handler that re-raises every failure as
ChartGenerationError carrying the request parameters. -/
def generate_chart (st : Settings) (source : String → FetchOutcome)
    (renderEffect : RawSeries → Except Unit Unit) (durs : Durations)
    (request : ChartRequest) (generate_interactive : Bool) :
    Except PyError ChartResponse :=
  match generate_chart_body st source renderEffect durs request
      generate_interactive with
  | .ok resp => .ok resp
  | .error e =>
    .error (.chartGeneration ("Failed to generate chart: " ++ e.msg)
      { pairs := request.pairs, start_date := request.start_date_time,
        end_date := request.end_date_time, interval := request.interval })

/-! ## The API layer (src/app/api/v1/charts.py) -/

/-- An HTTPException as raised by the endpoint handlers. -/
structure HTTPErr where
  status_code : Nat
  error_code : String
  message : String
deriving Repr, DecidableEq

/-- The shared exception-translation of the two endpoints: ForexChart
validation / not-found kinds to 400/404, ChartGenerationError to 500, and
anything else to a generic 500 INTERNAL_ERROR. -/
def translateErr (e : PyError) : HTTPErr :=
  match e with
  | .dataNotFound m _ => { status_code := 404, error_code := "DATA_NOT_FOUND", message := m }
  | .invalidDateRange m => { status_code := 400, error_code := "INVALID_DATE_RANGE", message := m }
  | .invalidCurrencyPair m => { status_code := 400, error_code := "INVALID_CURRENCY_PAIR", message := m }
  | .chartGeneration m _ => { status_code := 500, error_code := "CHART_GENERATION_ERROR", message := m }
  | _ => { status_code := 500, error_code := "INTERNAL_ERROR", message := "An unexpected error occurred" }

/-- POST /v1/charts (create_chart): generate_chart with
generate_interactive=True, exceptions translated to HTTPException. -/
def create_chart (st : Settings) (source : String → FetchOutcome)
    (renderEffect : RawSeries → Except Unit Unit) (durs : Durations)
    (request : ChartRequest) : Except HTTPErr ChartResponse :=
  match generate_chart st source renderEffect durs request true with
  | .ok resp => .ok resp
  | .error e => .error (translateErr e)

/-- POST /v1/charts/data-only (get_chart_data): generate_chart with
generate_interactive=False. -/
def get_chart_data (st : Settings) (source : String → FetchOutcome)
    (renderEffect : RawSeries → Except Unit Unit) (durs : Durations)
    (request : ChartRequest) : Except HTTPErr ChartResponse :=
  match generate_chart st source renderEffect durs request false with
  | .ok resp => .ok resp
  | .error e => .error (translateErr e)

/-! ## Specification-side definitions

These restate, in the words of the specification, what the post-processing
and normalization steps are supposed to produce; the theorems below relate
them to the embedded code. -/

/-- The specification's stable keep-first dedup: keep the head, delete every
later row with the same timestamp, recurse. -/
def keepFirstSpec : RawSeries → RawSeries
  | [] => []
  | r :: rs => r :: keepFirstSpec (rs.filter (fun x => x.time ≠ r.time))
termination_by l => l.length
decreasing_by
  simp only [List.length_cons]
  exact Nat.lt_succ_of_le (List.length_filter_le _ _)

/-- The row-completeness predicate of the specification: all four OHLC
fields present. -/
def allPresent (r : Row) : Bool :=
  r.open_.isSome && r.high.isSome && r.low.isSome && r.close.isSome

/-- The candle a complete row yields (the getD defaults are never read on
rows satisfying allPresent). -/
def specCandle (r : Row) : CandleData :=
  { time := r.time, open_ := r.open_.getD 0, high := r.high.getD 0,
    low := r.low.getD 0, close := r.close.getD 0 }

/-! ## Helper lemmas -/

/-- Intermediate form of the pandas dedup: carry the seen-set explicitly
(pandas duplicated marks an entry seen before; the mask version and this
recursion agree). -/
def dedupSeen (seen : List Nat) : RawSeries → RawSeries
  | [] => []
  | r :: rs =>
    if r.time ∈ seen then dedupSeen (r.time :: seen) rs
    else r :: dedupSeen (r.time :: seen) rs

theorem dedupKeepFirst_eq_seen (w : RawSeries) :
    ∀ seen, (w.zip (dupMask seen (w.map Row.time))).filterMap
      (fun p => if p.2 then none else some p.1) = dedupSeen seen w := by
  induction w with
  | nil => intro seen; rfl
  | cons r rs ih =>
    intro seen
    by_cases h : r.time ∈ seen <;>
      simp [dupMask, dedupSeen, h, ih (r.time :: seen)]

theorem dedupSeen_eq_spec (w : RawSeries) :
    ∀ seen, dedupSeen seen w
      = keepFirstSpec (w.filter (fun r => !decide (r.time ∈ seen))) := by
  induction w with
  | nil => intro seen; simp [dedupSeen, keepFirstSpec]
  | cons r rs ih =>
    intro seen
    by_cases h : r.time ∈ seen
    · have hpt : ∀ x ∈ rs,
          (!decide (x.time ∈ r.time :: seen)) = (!decide (x.time ∈ seen)) := by
        intro x _
        by_cases hxt : x.time = r.time
        · simp [hxt, h, List.mem_cons]
        · simp [List.mem_cons, hxt]
      have hc : (!decide (r.time ∈ seen)) = false := by simp [h]
      rw [List.filter_cons]
      simp only [hc, Bool.false_eq_true, if_false]
      simp only [dedupSeen, if_pos h, ih (r.time :: seen), List.filter_congr hpt]
    · have hpt : ∀ x ∈ rs,
          ((fun x => decide (x.time ≠ r.time)) x
              && (fun x => !decide (x.time ∈ seen)) x)
            = (!decide (x.time ∈ r.time :: seen)) := by
        intro x _
        by_cases hxt : x.time = r.time
        · simp [hxt, List.mem_cons]
        · simp [List.mem_cons, hxt]
      have hc : (!decide (r.time ∈ seen)) = true := by simp [h]
      rw [List.filter_cons]
      simp only [hc, if_true]
      rw [keepFirstSpec, List.filter_filter, List.filter_congr hpt]
      simp only [dedupSeen, if_neg h, ih (r.time :: seen)]

/-- The pandas keep-first dedup of _fetch_market_data computes exactly the
specification's stable keep-first dedup. -/
theorem dedupKeepFirst_eq_spec (w : RawSeries) :
    dedupKeepFirst w = keepFirstSpec w := by
  unfold dedupKeepFirst
  rw [dedupKeepFirst_eq_seen w [], dedupSeen_eq_spec w []]
  congr 1
  simp

theorem fetchLoop_exhaust (source : String → FetchOutcome) :
    ∀ l, (∀ c ∈ l, usable (source c) = none) → fetchLoop source l = (l, none) := by
  intro l
  induction l with
  | nil => intro _; rfl
  | cons s rest ih =>
    intro h
    simp only [fetchLoop, h s (List.mem_cons_self s rest),
      ih (fun c hc => h c (List.mem_cons_of_mem s hc))]

theorem fetchLoop_first_success (source : String → FetchOutcome)
    (sym : String) (post : List String) (w : RawSeries)
    (hw : usable (source sym) = some w) :
    ∀ pre, (∀ c ∈ pre, usable (source c) = none) →
      fetchLoop source (pre ++ sym :: post) = (pre ++ [sym], some w) := by
  intro pre
  induction pre with
  | nil => intro _; simp only [List.nil_append, fetchLoop, hw]
  | cons s rest ih =>
    intro h
    have h2 := ih (fun c hc => h c (List.mem_cons_of_mem s hc))
    simp only [List.cons_append, fetchLoop, h s (List.mem_cons_self s rest),
      List.append_eq, h2]

theorem filterMap_rowCandle (df : RawSeries) :
    df.filterMap rowCandle = (df.filter allPresent).map specCandle := by
  induction df with
  | nil => rfl
  | cons r rs ih =>
    rcases r with ⟨t, o, h, l, c⟩
    cases o <;> cases h <;> cases l <;> cases c <;>
      simp [rowCandle, allPresent, specCandle, List.filter_cons, ih]

theorem foldlMin_le_init {α : Type} [LinearOrder α] (l : List α) (x : α) :
    l.foldl min x ≤ x := by
  induction l generalizing x with
  | nil => exact le_refl x
  | cons z zs ih =>
    simp only [List.foldl_cons]
    exact le_trans (ih (min x z)) (min_le_left x z)

theorem foldlMin_le_mem {α : Type} [LinearOrder α] (l : List α) (x y : α)
    (hy : y ∈ l) : l.foldl min x ≤ y := by
  induction l generalizing x with
  | nil => cases hy
  | cons z zs ih =>
    simp only [List.foldl_cons]
    rcases List.mem_cons.mp hy with rfl | h
    · exact le_trans (foldlMin_le_init zs (min x y)) (min_le_right x y)
    · exact ih (min x z) h

theorem foldlMax_ge_init {α : Type} [LinearOrder α] (l : List α) (x : α) :
    x ≤ l.foldl max x := by
  induction l generalizing x with
  | nil => exact le_refl x
  | cons z zs ih =>
    simp only [List.foldl_cons]
    exact le_trans (le_max_left x z) (ih (max x z))

theorem foldlMax_ge_mem {α : Type} [LinearOrder α] (l : List α) (x y : α)
    (hy : y ∈ l) : y ≤ l.foldl max x := by
  induction l generalizing x with
  | nil => cases hy
  | cons z zs ih =>
    simp only [List.foldl_cons]
    rcases List.mem_cons.mp hy with rfl | h
    · exact le_trans (le_max_right x y) (foldlMax_ge_init zs (max x y))
    · exact ih (max x z) h

theorem foldlMin_mem {α : Type} [LinearOrder α] (l : List α) (x : α) :
    l.foldl min x ∈ x :: l := by
  induction l generalizing x with
  | nil => simp
  | cons y ys ih =>
    simp only [List.foldl_cons]
    rcases min_choice x y with h | h <;> rw [h]
    · rcases List.mem_cons.mp (ih x) with h2 | h2
      · simp [h2]
      · right; right; exact h2
    · rcases List.mem_cons.mp (ih y) with h2 | h2
      · simp [h2]
      · right; right; exact h2

theorem foldlMax_mem {α : Type} [LinearOrder α] (l : List α) (x : α) :
    l.foldl max x ∈ x :: l := by
  induction l generalizing x with
  | nil => simp
  | cons y ys ih =>
    simp only [List.foldl_cons]
    rcases max_choice x y with h | h <;> rw [h]
    · rcases List.mem_cons.mp (ih x) with h2 | h2
      · simp [h2]
      · right; right; exact h2
    · rcases List.mem_cons.mp (ih y) with h2 | h2
      · simp [h2]
      · right; right; exact h2

theorem splitChar_ne_nil (c : Char) : ∀ l : List Char, splitChar c l ≠ [] := by
  intro l
  cases l with
  | nil => simp [splitChar]
  | cons x xs =>
    simp only [splitChar]
    by_cases hx : x = c
    · simp [hx]
    · rcases h2 : splitChar c xs with _ | ⟨p, ps⟩ <;> simp [hx, h2]

theorem splitChar_single (c : Char) :
    ∀ l lq : List Char, splitChar c l = [lq] → l = lq ∧ c ∉ lq := by
  intro l
  induction l with
  | nil =>
    intro lq h
    simp only [splitChar, List.cons.injEq, and_true] at h
    simp [← h]
  | cons x xs ih =>
    intro lq h
    simp only [splitChar] at h
    by_cases hx : x = c
    · rw [if_pos hx] at h
      injection h with h1 h2
      exact absurd h2 (splitChar_ne_nil c xs)
    · rw [if_neg hx] at h
      rcases h2 : splitChar c xs with _ | ⟨p, ps⟩
      · exact absurd h2 (splitChar_ne_nil c xs)
      · rw [h2] at h
        injection h with h1 h3
        subst h3
        obtain ⟨rfl, hcp⟩ := ih p h2
        refine ⟨h1, ?_⟩
        rw [← h1]
        simp only [List.mem_cons, not_or]
        exact ⟨fun hh => hx hh.symm, hcp⟩

theorem splitChar_pair (c : Char) :
    ∀ l lb lq : List Char, splitChar c l = [lb, lq] →
      l = lb ++ c :: lq ∧ c ∉ lb ∧ c ∉ lq := by
  intro l
  induction l with
  | nil => intro lb lq h; simp [splitChar] at h
  | cons x xs ih =>
    intro lb lq h
    simp only [splitChar] at h
    by_cases hx : x = c
    · rw [if_pos hx] at h
      injection h with h1 h2
      obtain ⟨rfl, hcq⟩ := splitChar_single c xs lq h2
      subst hx
      exact ⟨by rw [← h1]; simp, by rw [← h1]; simp, hcq⟩
    · rw [if_neg hx] at h
      rcases h2 : splitChar c xs with _ | ⟨p, ps⟩
      · exact absurd h2 (splitChar_ne_nil c xs)
      · rw [h2] at h
        injection h with h1 h3
        subst h3
        obtain ⟨rfl, hcp, hcq⟩ := ih p lq h2
        refine ⟨by rw [← h1]; simp, ?_, hcq⟩
        rw [← h1]
        simp only [List.mem_cons, not_or]
        exact ⟨fun hh => hx hh.symm, hcp⟩

theorem fetchLoop_none_iff (source : String → FetchOutcome) :
    ∀ l, (fetchLoop source l).2 = none ↔
      ∀ c ∈ l, usable (source c) = none := by
  intro l
  induction l with
  | nil => simp [fetchLoop]
  | cons s rest ih =>
    constructor
    · intro h c hc
      rcases hu : usable (source s) with _ | w
      · rcases List.mem_cons.mp hc with rfl | hc2
        · exact hu
        · simp only [fetchLoop, hu] at h
          exact (ih.mp h) c hc2
      · simp [fetchLoop, hu] at h
    · intro h
      have hu := h s (List.mem_cons_self s rest)
      simp only [fetchLoop, hu]
      exact ih.mpr (fun c hc => h c (List.mem_cons_of_mem s hc))

deriving instance DecidableEq for Except

theorem strMk_append (a b : List Char) :
    String.mk a ++ String.mk b = String.mk (a ++ b) := rfl

/-! ## Claims -/

/-- Claim C7: for a pair whose cleaned form splits into base b and quote q,
the candidate list is exactly, in order, b+q with the =X suffix, the same
value again, the reversed q+b with the suffix, and the quote alone with the
suffix — four entries, canonical form first and duplicated; the list is a
pure function of the pair string. -/
theorem C7_candidates_exact (pairs b q : String)
    (hsplit : cleanSplit pairs = [b, q]) :
    symbolCandidates pairs
      = [b ++ q ++ "=X", b ++ q ++ "=X", q ++ b ++ "=X", q ++ "=X"] := by
  have h0 := hsplit
  unfold cleanSplit at h0
  rcases h2 : splitChar '/' (pairClean pairs).data with _ | ⟨lb, rest⟩
  · rw [h2] at h0; simp at h0
  · rw [h2] at h0
    rcases rest with _ | ⟨lq, rest2⟩
    · simp at h0
    · rcases rest2 with _ | ⟨x, xs⟩
      · simp only [List.map_cons, List.map_nil, List.cons.injEq, and_true] at h0
        obtain ⟨hb, hq⟩ := h0
        obtain ⟨hdec, hnb, hnq⟩ := splitChar_pair '/' _ lb lq h2
        have hstrip : stripSlashes (pairClean pairs) = String.mk (lb ++ lq) := by
          unfold stripSlashes
          rw [hdec, List.filter_append, List.filter_cons]
          have h3 : lb.filter (fun c => !decide (c = '/')) = lb :=
            List.filter_eq_self.mpr
              (fun a ha => by simp; exact fun hh => hnb (hh ▸ ha))
          have h4 : lq.filter (fun c => !decide (c = '/')) = lq :=
            List.filter_eq_self.mpr
              (fun a ha => by simp; exact fun hh => hnq (hh ▸ ha))
          simp [h3, h4]
        unfold symbolCandidates
        rw [hsplit]
        rw [hstrip, ← hb, ← hq]
        simp [strMk_append]
      · simp at h0

/-- Witness for C7 at the concrete pair EUR/USD. -/
theorem C7_witness :
    symbolCandidates "EUR/USD"
      = ["EUR" ++ "USD" ++ "=X", "EUR" ++ "USD" ++ "=X",
         "USD" ++ "EUR" ++ "=X", "USD" ++ "=X"] :=
  C7_candidates_exact "EUR/USD" "EUR" "USD" (by decide)

/-- Claim C5: _parse_date_range raises InvalidDateRange exactly when a string
matches none of the three accepted formats, or the parsed start is not
strictly before the parsed end, or the whole-day difference exceeds the
configured maximum lookback; otherwise it returns the parsed pair.  The
function is pure, hence deterministic and side-effect free by construction. -/
theorem C5_validate_iff (st : Settings) (a b : String) :
    (∀ s e, parse_date_range st a b = .ok (s, e) ↔
       (parse_datetime a = some s ∧ parse_datetime b = some e ∧
        s.toMin < e.toMin ∧
        (e.toMin - s.toMin) / 1440 ≤ st.max_days_lookback)) ∧
    (isInvalidDateRangeErr (parse_date_range st a b) = true ↔
       (parse_datetime a = none ∨ parse_datetime b = none ∨
        ∃ s e, parse_datetime a = some s ∧ parse_datetime b = some e ∧
          (e.toMin ≤ s.toMin ∨
           st.max_days_lookback < (e.toMin - s.toMin) / 1440))) := by
  unfold parse_date_range
  rcases ha : parse_datetime a with _ | s0
  · refine ⟨fun s e => ?_, ?_⟩
    · simp
    · simp [isInvalidDateRangeErr]
  · rcases hb : parse_datetime b with _ | e0
    · refine ⟨fun s e => ?_, ?_⟩
      · simp
      · simp [isInvalidDateRangeErr]
    · dsimp only
      by_cases hord : e0.toMin ≤ s0.toMin
      · rw [if_pos hord]
        refine ⟨fun s e => ?_, ?_⟩
        · simp only [Except.ok.injEq, Prod.mk.injEq, Option.some.injEq]
          constructor
          · intro h; cases h
          · rintro ⟨rfl, rfl, h3, _⟩
            exact absurd hord (not_le.mpr h3)
        · simp only [isInvalidDateRangeErr, true_iff]
          exact Or.inr (Or.inr ⟨s0, e0, rfl, rfl, Or.inl hord⟩)
      · rw [if_neg hord]
        by_cases hdays :
            st.max_days_lookback < (e0.toMin - s0.toMin) / 1440
        · rw [if_pos hdays]
          refine ⟨fun s e => ?_, ?_⟩
          · simp only [Except.ok.injEq, Prod.mk.injEq, Option.some.injEq]
            constructor
            · intro h; cases h
            · rintro ⟨rfl, rfl, _, h4⟩
              exact absurd hdays (not_lt.mpr h4)
          · simp only [isInvalidDateRangeErr, true_iff]
            exact Or.inr (Or.inr ⟨s0, e0, rfl, rfl, Or.inr hdays⟩)
        · rw [if_neg hdays]
          refine ⟨fun s e => ?_, ?_⟩
          · simp only [Except.ok.injEq, Prod.mk.injEq, Option.some.injEq]
            constructor
            · rintro ⟨rfl, rfl⟩
              exact ⟨rfl, rfl, not_le.mp hord, not_lt.mp hdays⟩
            · rintro ⟨rfl, rfl, _, _⟩
              exact ⟨rfl, rfl⟩
          · simp only [isInvalidDateRangeErr, Bool.false_eq_true, false_iff,
              not_or]
            refine ⟨by simp [ha], by simp [hb], ?_⟩
            rintro ⟨s, e, hs, he, hbad⟩
            rw [Option.some.injEq] at hs he
            subst hs; subst he
            rcases hbad with h | h
            · exact hord h
            · exact hdays h

/-- Witness for C5: the sample request range parses and is accepted. -/
theorem C5_witness :
    parse_date_range defaultSettings "2025-08-25 10:00 AM" "2025-08-26 10:00 AM"
      = .ok (⟨2025, 8, 25, 10, 0⟩, ⟨2025, 8, 26, 10, 0⟩) :=
  ((C5_validate_iff defaultSettings "2025-08-25 10:00 AM"
      "2025-08-26 10:00 AM").1 ⟨2025, 8, 25, 10, 0⟩ ⟨2025, 8, 26, 10, 0⟩).mpr
    (by refine ⟨by decide, by decide, by decide, by decide⟩)

/-- Counterexample to claim C6 as stated: the range 2025-01-01 00:00 to
2025-01-31 12:00 is accepted by the validator although its span is
30 days and 12 hours, which exceeds the configured maximum of 30 days
(the code compares only the whole-day part of the timedelta). -/
theorem C6_counterexample :
    parse_date_range defaultSettings "2025-01-01 00:00" "2025-01-31 12:00"
      = .ok (⟨2025, 1, 1, 0, 0⟩, ⟨2025, 1, 31, 12, 0⟩) ∧
    defaultSettings.max_days_lookback * 1440
      < DT.toMin ⟨2025, 1, 31, 12, 0⟩ - DT.toMin ⟨2025, 1, 1, 0, 0⟩ := by
  constructor
  · rfl
  · decide

/-- Claim C6 amended: every accepted range satisfies start < end and
floor((end - start) / 1 day) ≤ max_days_lookback; equivalently the span is
strictly below max_days_lookback + 1 days, but it may exceed
max_days_lookback days by a fractional-day remainder. -/
theorem C6_accepted_range_invariant (st : Settings) (a b : String)
    (s e : DT) (h : parse_date_range st a b = .ok (s, e)) :
    s.toMin < e.toMin ∧
    (e.toMin - s.toMin) / 1440 ≤ st.max_days_lookback ∧
    e.toMin - s.toMin < (st.max_days_lookback + 1) * 1440 := by
  unfold parse_date_range at h
  rcases ha : parse_datetime a with _ | s0 <;> rw [ha] at h
  · cases h
  · rcases hb : parse_datetime b with _ | e0 <;> rw [hb] at h
    · cases h
    · dsimp only at h
      by_cases hord : e0.toMin ≤ s0.toMin
      · rw [if_pos hord] at h; cases h
      · rw [if_neg hord] at h
        by_cases hdays :
            st.max_days_lookback < (e0.toMin - s0.toMin) / 1440
        · rw [if_pos hdays] at h; cases h
        · rw [if_neg hdays] at h
          rw [Except.ok.injEq, Prod.mk.injEq] at h
          obtain ⟨rfl, rfl⟩ := h
          refine ⟨not_le.mp hord, not_lt.mp hdays, ?_⟩
          exact (Nat.div_lt_iff_lt_mul (by norm_num)).mp
            (Nat.lt_succ_of_le (not_lt.mp hdays))

/-- Witness for the amended C6 at the sample accepted range. -/
theorem C6_witness :
    DT.toMin ⟨2025, 8, 25, 10, 0⟩ < DT.toMin ⟨2025, 8, 26, 10, 0⟩ ∧
    (DT.toMin ⟨2025, 8, 26, 10, 0⟩ - DT.toMin ⟨2025, 8, 25, 10, 0⟩) / 1440
      ≤ defaultSettings.max_days_lookback ∧
    DT.toMin ⟨2025, 8, 26, 10, 0⟩ - DT.toMin ⟨2025, 8, 25, 10, 0⟩
      < (defaultSettings.max_days_lookback + 1) * 1440 :=
  C6_accepted_range_invariant defaultSettings "2025-08-25 10:00 AM"
    "2025-08-26 10:00 AM" ⟨2025, 8, 25, 10, 0⟩ ⟨2025, 8, 26, 10, 0⟩ rfl

/-- Claim C2: the fetch loop invokes the data source on the candidates in
resolver order; the first candidate with a usable (non-empty) series wins and
no later candidate is consulted (the invocation trace is exactly the prefix
up to and including the winner); DataNotFound is raised exactly when every
candidate fails or is empty, and it carries the full candidate list, the
requested range and the interval in its details. -/
theorem C2_fetch_first_success_or_exhaustion (st : Settings)
    (source : String → FetchOutcome) (pairs b q : String) (sdt edt : DT)
    (iv : String) (hsplit : cleanSplit pairs = [b, q]) :
    (∀ pre sym post w, symbolCandidates pairs = pre ++ sym :: post →
      (∀ c ∈ pre, usable (source c) = none) → usable (source sym) = some w →
      fetch_market_data st source pairs sdt edt iv
        = (pre ++ [sym], .ok (postProcess st w))) ∧
    ((∀ c ∈ symbolCandidates pairs, usable (source c) = none) →
      fetch_market_data st source pairs sdt edt iv
        = (symbolCandidates pairs,
           .error (.dataNotFound ("No data found for " ++ pairs)
             (some { pairs := pairs,
                     candidates_tried := symbolCandidates pairs,
                     start_date := sdt, end_date := edt,
                     interval := iv })))) ∧
    (isDataNotFoundErr (fetch_market_data st source pairs sdt edt iv).2
        = true ↔
      ∀ c ∈ symbolCandidates pairs, usable (source c) = none) := by
  refine ⟨?_, ?_, ?_⟩
  rotate_left 2
  · unfold fetch_market_data
    rw [hsplit]
    dsimp only
    rcases hl : (fetchLoop source (symbolCandidates pairs)).2 with _ | w <;>
      dsimp only
    · simp only [isDataNotFoundErr, true_iff]
      exact (fetchLoop_none_iff source (symbolCandidates pairs)).mp hl
    · simp only [isDataNotFoundErr, Bool.false_eq_true, false_iff]
      intro hall
      rw [(fetchLoop_none_iff source (symbolCandidates pairs)).mpr hall]
        at hl
      cases hl
  · intro pre sym post w hdecomp hpre hsym
    unfold fetch_market_data
    rw [hsplit]
    dsimp only
    rw [show symbolCandidates pairs = pre ++ sym :: post from hdecomp,
      fetchLoop_first_success source sym post w hsym pre hpre, ← hdecomp]
  · intro hall
    unfold fetch_market_data
    rw [hsplit]
    dsimp only
    rw [fetchLoop_exhaust source (symbolCandidates pairs) hall]

/-- Witness for C2: a data source that is empty on every symbol makes the
fetch of EUR/USD try all four candidates and raise DataNotFound carrying
them together with the requested range and interval. -/
theorem C2_witness :
    fetch_market_data defaultSettings (fun _ => FetchOutcome.noData)
      "EUR/USD" ⟨2025, 8, 25, 10, 0⟩ ⟨2025, 8, 26, 10, 0⟩ "5m"
      = (["EURUSD=X", "EURUSD=X", "USDEUR=X", "USD=X"],
         .error (.dataNotFound "No data found for EUR/USD"
           (some { pairs := "EUR/USD",
                   candidates_tried :=
                     ["EURUSD=X", "EURUSD=X", "USDEUR=X", "USD=X"],
                   start_date := ⟨2025, 8, 25, 10, 0⟩,
                   end_date := ⟨2025, 8, 26, 10, 0⟩,
                   interval := "5m" }))) := by
  have h := (C2_fetch_first_success_or_exhaustion defaultSettings
    (fun _ => FetchOutcome.noData) "EUR/USD" "EUR" "USD"
    ⟨2025, 8, 25, 10, 0⟩ ⟨2025, 8, 26, 10, 0⟩ "5m" (by decide)).2.1
    (fun c _ => rfl)
  rw [h]
  decide

/-- Claim C4: the series fetch returns is the winning series with duplicate
timestamps collapsed keeping the first occurrence (the stable keepFirstSpec
dedup), and, only when the deduplicated length exceeds max_data_points
(default 10000), truncated to exactly the last max_data_points rows: the
retained rows are a suffix of the deduplicated series of that exact length. -/
theorem C4_dedup_then_tail_truncate (st : Settings)
    (source : String → FetchOutcome) (pairs b q : String) (sdt edt : DT)
    (iv : String) (w : RawSeries) (hsplit : cleanSplit pairs = [b, q])
    (hwin : (fetchLoop source (symbolCandidates pairs)).2 = some w) :
    ∃ out, (fetch_market_data st source pairs sdt edt iv).2 = .ok out ∧
      ((keepFirstSpec w).length ≤ st.max_data_points →
        out = keepFirstSpec w) ∧
      (st.max_data_points < (keepFirstSpec w).length →
        out.length = st.max_data_points ∧
        (keepFirstSpec w).take ((keepFirstSpec w).length - st.max_data_points)
          ++ out = keepFirstSpec w) ∧
      defaultSettings.max_data_points = 10000 := by
  refine ⟨postProcess st w, ?_, ?_, ?_, rfl⟩
  · unfold fetch_market_data
    rw [hsplit]
    dsimp only
    rw [hwin]
  · intro hle
    unfold postProcess
    rw [dedupKeepFirst_eq_spec]
    exact if_neg (not_lt.mpr hle)
  · intro hgt
    unfold postProcess
    rw [dedupKeepFirst_eq_spec, if_pos hgt]
    unfold pdTail
    constructor
    · rw [List.length_drop]
      omega
    · exact List.take_append_drop _ _

/-- Witness for C4: a winning series with one duplicated timestamp, fetched
through a source that serves it on the first candidate, comes back as its
stable keep-first dedup (short enough that no truncation applies). -/
theorem C4_witness :
    (fetch_market_data defaultSettings
      (fun s => if s = "EURUSD=X" then
          FetchOutcome.series
            [⟨1, some 1, some 1, some 1, some 1⟩,
             ⟨1, some 2, some 2, some 2, some 2⟩,
             ⟨2, some 3, some 3, some 3, some 3⟩]
        else FetchOutcome.err)
      "EUR/USD" ⟨2025, 8, 25, 10, 0⟩ ⟨2025, 8, 26, 10, 0⟩ "5m").2
      = .ok (keepFirstSpec
        [⟨1, some 1, some 1, some 1, some 1⟩,
         ⟨1, some 2, some 2, some 2, some 2⟩,
         ⟨2, some 3, some 3, some 3, some 3⟩]) := by
  obtain ⟨out, h1, h2, _, _⟩ := C4_dedup_then_tail_truncate defaultSettings
    (fun s => if s = "EURUSD=X" then
        FetchOutcome.series
          [⟨1, some 1, some 1, some 1, some 1⟩,
           ⟨1, some 2, some 2, some 2, some 2⟩,
           ⟨2, some 3, some 3, some 3, some 3⟩]
      else FetchOutcome.err)
    "EUR/USD" "EUR" "USD" ⟨2025, 8, 25, 10, 0⟩ ⟨2025, 8, 26, 10, 0⟩ "5m"
    [⟨1, some 1, some 1, some 1, some 1⟩,
     ⟨1, some 2, some 2, some 2, some 2⟩,
     ⟨2, some 3, some 3, some 3, some 3⟩]
    (by decide) (by decide)
  rw [h2 (by simp [keepFirstSpec]; decide)] at h1
  exact h1

/-- Claim C3: normalization produces a candle for exactly the rows whose
four OHLC fields are all present, in input row order (the output is the
filter of the complete rows mapped to candles, so a row is kept or dropped
as a whole), and it raises DataNotFound precisely when no row survives. -/
theorem C3_normalize_drops_incomplete_rows (df : RawSeries)
    (pairs iv : String) :
    (isDataNotFoundErr (process_chart_data df pairs iv) = true ↔
      ∀ r ∈ df, allPresent r = false) ∧
    (∀ cd, process_chart_data df pairs iv = .ok cd →
      cd.candles = (df.filter allPresent).map specCandle) := by
  have hc : df.filterMap rowCandle = (df.filter allPresent).map specCandle :=
    filterMap_rowCandle df
  unfold process_chart_data
  by_cases h : (df.filterMap rowCandle).isEmpty
  · rw [if_pos h]
    constructor
    · simp only [isDataNotFoundErr, true_iff]
      rw [hc] at h
      intro r hr
      by_contra hcontra
      have hmem : r ∈ df.filter allPresent :=
        List.mem_filter.mpr ⟨hr, Bool.not_eq_false _ ▸ hcontra⟩
      rcases hfe : df.filter allPresent with _ | ⟨x, xs⟩
      · rw [hfe] at hmem; cases hmem
      · rw [hfe] at h; simp [List.isEmpty] at h
    · intro cd hcd; cases hcd
  · rw [if_neg h]
    constructor
    · simp only [isDataNotFoundErr, Bool.false_eq_true, false_iff]
      intro hall
      apply h
      rw [hc]
      have : df.filter allPresent = [] :=
        List.filter_eq_nil_iff.mpr (fun r hr => by simp [hall r hr])
      simp [this]
    · intro cd hcd
      rw [Except.ok.injEq] at hcd
      rw [← hcd]
      exact hc

/-- Witness for C3: one complete row and one row with a missing Open are
normalized to exactly the complete row's candle. -/
theorem C3_witness :
    (⟨"EUR/USD", 1, 2, "5m", 1, ⟨1, 2⟩, [⟨1, 1, 2, 1, 2⟩]⟩
        : ChartData).candles
      = (([⟨1, some 1, some 2, some 1, some 2⟩,
           ⟨2, none, some 9, some 0, some 9⟩] : RawSeries).filter
          allPresent).map specCandle :=
  (C3_normalize_drops_incomplete_rows
    [⟨1, some 1, some 2, some 1, some 2⟩, ⟨2, none, some 9, some 0, some 9⟩]
    "EUR/USD" "5m").2 _ (by decide)

/-- Claim C8: for a successful normalization, start_date and end_date are the
least and greatest timestamps of the processed raw series, data_points equals
the candle count, and the price range min/max are the least and greatest
values of the union of all four OHLC fields over all surviving candles. -/
theorem C8_aggregates (df : RawSeries) (pairs iv : String) (cd : ChartData)
    (h : process_chart_data df pairs iv = .ok cd) :
    (cd.start_date ∈ df.map Row.time ∧
      ∀ t ∈ df.map Row.time, cd.start_date ≤ t) ∧
    (cd.end_date ∈ df.map Row.time ∧
      ∀ t ∈ df.map Row.time, t ≤ cd.end_date) ∧
    cd.data_points = cd.candles.length ∧
    (cd.price_range.min ∈ allPrices cd.candles ∧
      ∀ v ∈ allPrices cd.candles, cd.price_range.min ≤ v) ∧
    (cd.price_range.max ∈ allPrices cd.candles ∧
      ∀ v ∈ allPrices cd.candles, v ≤ cd.price_range.max) := by
  unfold process_chart_data at h
  by_cases hemp : (df.filterMap rowCandle).isEmpty
  · rw [if_pos hemp] at h; cases h
  · rw [if_neg hemp] at h
    rw [Except.ok.injEq] at h
    subst h
    have hdf : df ≠ [] := by
      intro hnil
      subst hnil
      exact hemp rfl
    rcases df with _ | ⟨r, rs⟩
    · exact absurd rfl hdf
    · refine ⟨?_, ?_, rfl, ?_, ?_⟩
      · constructor
        · exact foldlMin_mem (rs.map Row.time) r.time
        · intro t ht
          rcases List.mem_cons.mp ht with rfl | ht2
          · exact foldlMin_le_init (rs.map Row.time) _
          · exact foldlMin_le_mem (rs.map Row.time) r.time _ ht2
      · constructor
        · exact foldlMax_mem (rs.map Row.time) r.time
        · intro t ht
          rcases List.mem_cons.mp ht with rfl | ht2
          · exact foldlMax_ge_init (rs.map Row.time) _
          · exact foldlMax_ge_mem (rs.map Row.time) r.time _ ht2
      · rcases hp : allPrices ((r :: rs).filterMap rowCandle) with _ | ⟨x, xs⟩
        · -- candles are non-empty, so the flattened price list is non-empty
          rcases hcd : (r :: rs).filterMap rowCandle with _ | ⟨c, cs⟩
          · rw [hcd] at hemp; exact absurd rfl hemp
          · rw [hcd] at hp
            simp [allPrices] at hp
        · constructor
          · exact foldlMin_mem xs x
          · intro v hv
            rcases List.mem_cons.mp hv with rfl | hv2
            · exact foldlMin_le_init xs _
            · exact foldlMin_le_mem xs x _ hv2
      · rcases hp : allPrices ((r :: rs).filterMap rowCandle) with _ | ⟨x, xs⟩
        · rcases hcd : (r :: rs).filterMap rowCandle with _ | ⟨c, cs⟩
          · rw [hcd] at hemp; exact absurd rfl hemp
          · rw [hcd] at hp
            simp [allPrices] at hp
        · constructor
          · exact foldlMax_mem xs x
          · intro v hv
            rcases List.mem_cons.mp hv with rfl | hv2
            · exact foldlMax_ge_init xs _
            · exact foldlMax_ge_mem xs x _ hv2

/-- Witness for C8 at a concrete two-row series (out-of-order timestamps,
min over the union of OHLC values). -/
theorem C8_witness :
    ((⟨"EUR/USD", 3, 5, "5m", 2, ⟨1, 4⟩,
        [⟨5, 1, 4, 1, 2⟩, ⟨3, 2, 3, 1, 2⟩]⟩ : ChartData).start_date
      ∈ ([⟨5, some 1, some 4, some 1, some 2⟩,
          ⟨3, some 2, some 3, some 1, some 2⟩] : RawSeries).map Row.time) ∧
    (⟨"EUR/USD", 3, 5, "5m", 2, ⟨1, 4⟩,
      [⟨5, 1, 4, 1, 2⟩, ⟨3, 2, 3, 1, 2⟩]⟩ : ChartData).price_range.min
      ≤ (4 : ℚ) :=
  ⟨(C8_aggregates
      [⟨5, some 1, some 4, some 1, some 2⟩, ⟨3, some 2, some 3, some 1, some 2⟩]
      "EUR/USD" "5m" _ (by decide)).1.1,
   (C8_aggregates
      [⟨5, some 1, some 4, some 1, some 2⟩, ⟨3, some 2, some 3, some 1, some 2⟩]
      "EUR/USD" "5m" _ (by decide)).2.2.2.1.2 4 (by decide)⟩

/-- Counterexample to claim C1 as stated: with an unparseable start date the
inner validation error is an InvalidDateRange, yet generate_chart surfaces a
ChartGenerationFailed (and the API layer turns it into a 500
CHART_GENERATION_ERROR, not a 400 INVALID_DATE_RANGE); likewise a request
whose candidates are all empty surfaces ChartGenerationFailed instead of
DataNotFound. -/
theorem C1_counterexample :
    isInvalidDateRangeErr
      (parse_date_range defaultSettings "bad" "2025-08-26 10:00 AM") = true ∧
    isChartGenerationErr
      (generate_chart defaultSettings (fun _ => FetchOutcome.noData)
        (fun _ => .ok ()) ⟨1, 2, 3⟩
        ⟨"EUR/USD", "bad", "2025-08-26 10:00 AM", "5m"⟩ true) = true ∧
    isInvalidDateRangeErr
      (generate_chart defaultSettings (fun _ => FetchOutcome.noData)
        (fun _ => .ok ()) ⟨1, 2, 3⟩
        ⟨"EUR/USD", "bad", "2025-08-26 10:00 AM", "5m"⟩ true) = false ∧
    create_chart defaultSettings (fun _ => FetchOutcome.noData)
        (fun _ => .ok ()) ⟨1, 2, 3⟩
        ⟨"EUR/USD", "bad", "2025-08-26 10:00 AM", "5m"⟩
      = .error ⟨500, "CHART_GENERATION_ERROR",
          "Failed to generate chart: Unable to parse datetime: bad"⟩ ∧
    isDataNotFoundErr
      (generate_chart defaultSettings (fun _ => FetchOutcome.noData)
        (fun _ => .ok ()) ⟨1, 2, 3⟩
        ⟨"EUR/USD", "2025-08-25 10:00 AM", "2025-08-26 10:00 AM", "5m"⟩
        true) = false ∧
    isChartGenerationErr
      (generate_chart defaultSettings (fun _ => FetchOutcome.noData)
        (fun _ => .ok ()) ⟨1, 2, 3⟩
        ⟨"EUR/USD", "2025-08-25 10:00 AM", "2025-08-26 10:00 AM", "5m"⟩
        true) = true := by
  refine ⟨by decide, by decide, by decide, by decide, by decide, by decide⟩

/-- Claim C1 amended: every exception raised inside the pipeline — the
validation and not-found kinds included — is caught by the top-level handler
of generate_chart and re-wrapped as ChartGenerationFailed carrying the
request parameters, so a failing request always surfaces
ChartGenerationFailed (HTTP 500 / CHART_GENERATION_ERROR at the API layer)
and never its inner kind. -/
theorem C1_every_failure_is_chart_generation (st : Settings)
    (source : String → FetchOutcome)
    (renderEffect : RawSeries → Except Unit Unit) (durs : Durations)
    (req : ChartRequest) (gi : Bool) :
    (∀ e, generate_chart st source renderEffect durs req gi = .error e →
      ∃ m, e = .chartGeneration m
        ⟨req.pairs, req.start_date_time, req.end_date_time, req.interval⟩) ∧
    (∀ h, create_chart st source renderEffect durs req = .error h →
      h.status_code = 500 ∧ h.error_code = "CHART_GENERATION_ERROR") := by
  have key : ∀ (gi2 : Bool) e,
      generate_chart st source renderEffect durs req gi2 = .error e →
      ∃ m, e = .chartGeneration m
        ⟨req.pairs, req.start_date_time, req.end_date_time, req.interval⟩ := by
    intro gi2 e he
    unfold generate_chart at he
    rcases hb : generate_chart_body st source renderEffect durs req gi2
        with ⟨e0⟩ | ⟨r0⟩ <;> rw [hb] at he
    · rw [Except.error.injEq] at he
      exact ⟨_, he.symm⟩
    · cases he
  constructor
  · exact key gi
  · intro h hh
    unfold create_chart at hh
    rcases hg : generate_chart st source renderEffect durs req true
        with ⟨e⟩ | ⟨r⟩ <;> rw [hg] at hh
    · obtain ⟨m, rfl⟩ := key true e hg
      rw [Except.error.injEq] at hh
      rw [← hh]
      exact ⟨rfl, rfl⟩
    · cases hh

/-- Witness for the amended C1: the concrete unparseable-date request
surfaces a 500 CHART_GENERATION_ERROR from the endpoint. -/
theorem C1_witness :
    (⟨500, "CHART_GENERATION_ERROR",
        "Failed to generate chart: Unable to parse datetime: bad"⟩
      : HTTPErr).status_code = 500 ∧
    (⟨500, "CHART_GENERATION_ERROR",
        "Failed to generate chart: Unable to parse datetime: bad"⟩
      : HTTPErr).error_code = "CHART_GENERATION_ERROR" :=
  (C1_every_failure_is_chart_generation defaultSettings
    (fun _ => FetchOutcome.noData) (fun _ => .ok ()) ⟨1, 2, 3⟩
    ⟨"EUR/USD", "bad", "2025-08-26 10:00 AM", "5m"⟩ true).2 _ (by decide)

/-- Closed form of the try-block body: the three data stages in sequence,
then the render stage only when generate_interactive is set. -/
theorem generate_chart_body_eq (st : Settings)
    (source : String → FetchOutcome)
    (renderEffect : RawSeries → Except Unit Unit) (durs : Durations)
    (req : ChartRequest) (gi : Bool) :
    generate_chart_body st source renderEffect durs req gi =
      match parse_date_range st req.start_date_time req.end_date_time with
      | .error e => .error e
      | .ok (sdt, edt) =>
        match (fetch_market_data st source req.pairs sdt edt
            req.interval).2 with
        | .error e => .error e
        | .ok df =>
          match process_chart_data df req.pairs req.interval with
          | .error e => .error e
          | .ok chart_data =>
            .ok { message := "Chart created successfully for " ++ req.pairs,
                  chart_data := chart_data,
                  chart_url := if gi then
                      (generate_interactive_chart renderEffect st df req.pairs
                        sdt edt).1
                    else none,
                  csv_filename := if gi then
                      (generate_interactive_chart renderEffect st df req.pairs
                        sdt edt).2
                    else none,
                  metadata :=
                    { metrics :=
                        { data_fetch_time := durs.fetch,
                          chart_generation_time :=
                            if gi then durs.render else 0,
                          total_time := durs.total,
                          data_points_processed := df.length },
                      interval := req.interval,
                      data_points := df.length,
                      date_range := (sdt, edt) } } := by
  unfold generate_chart_body
  rcases parse_date_range st req.start_date_time req.end_date_time
      with ⟨e⟩ | ⟨sdt, edt⟩
  · rfl
  · dsimp only [bind, Except.bind]
    rcases (fetch_market_data st source req.pairs sdt edt req.interval).2
        with ⟨e⟩ | ⟨df⟩
    · rfl
    · dsimp only
      rcases process_chart_data df req.pairs req.interval with ⟨e⟩ | ⟨cdat⟩
      · rfl
      · cases gi <;> rfl

/-- Claim C9: when validation, fetch and normalization succeed (witnessed by
a successful data-only run) and the external rendering step fails with any
exception, the interactive run still returns a successful response in which
the failure is downgraded to an absent chart URL and absent CSV path. -/
theorem C9_render_failure_downgraded (st : Settings)
    (source : String → FetchOutcome)
    (renderEffect : RawSeries → Except Unit Unit) (durs : Durations)
    (req : ChartRequest) (resp0 : ChartResponse)
    (hok : generate_chart st source renderEffect durs req false = .ok resp0)
    (badRender : RawSeries → Except Unit Unit)
    (hbad : ∀ d, badRender d = .error ()) :
    ∃ resp, generate_chart st source badRender durs req true = .ok resp ∧
      resp.chart_url = none ∧ resp.csv_filename = none ∧
      resp.success = true := by
  unfold generate_chart at hok ⊢
  rw [generate_chart_body_eq] at hok ⊢
  rcases hp : parse_date_range st req.start_date_time req.end_date_time
      with ⟨e⟩ | ⟨sdt, edt⟩ <;> rw [hp] at hok <;> dsimp only at hok ⊢
  · exact Except.noConfusion hok
  · rcases hf : (fetch_market_data st source req.pairs sdt edt
        req.interval).2 with ⟨e⟩ | ⟨df⟩ <;> rw [hf] at hok <;>
      dsimp only at hok ⊢
    · exact Except.noConfusion hok
    · rcases hn : process_chart_data df req.pairs req.interval
          with ⟨e⟩ | ⟨cdat⟩ <;> rw [hn] at hok <;> dsimp only at hok ⊢
      · exact Except.noConfusion hok
      · refine ⟨_, rfl, ?_, ?_, rfl⟩ <;>
          simp [generate_interactive_chart, hbad df]

/-- Witness for C9 at a concrete request whose data stages succeed and whose
renderer always fails. -/
theorem C9_witness :
    ∃ resp, generate_chart defaultSettings
        (fun s => if s = "EURUSD=X" then
            FetchOutcome.series [⟨1, some 1, some 2, some 1, some 2⟩]
          else FetchOutcome.err)
        (fun _ => .error ()) ⟨1, 2, 3⟩
        ⟨"EUR/USD", "2025-08-25 10:00 AM", "2025-08-26 10:00 AM", "5m"⟩ true
        = .ok resp ∧
      resp.chart_url = none ∧ resp.csv_filename = none ∧
      resp.success = true :=
  C9_render_failure_downgraded defaultSettings
    (fun s => if s = "EURUSD=X" then
        FetchOutcome.series [⟨1, some 1, some 2, some 1, some 2⟩]
      else FetchOutcome.err)
    (fun _ => .error ()) ⟨1, 2, 3⟩
    ⟨"EUR/USD", "2025-08-25 10:00 AM", "2025-08-26 10:00 AM", "5m"⟩
    { message := "Chart created successfully for EUR/USD",
      chart_data := { pairs := "EUR/USD", start_date := 1, end_date := 1,
                      interval := "5m", data_points := 1,
                      price_range := { min := 1, max := 2 },
                      candles := [⟨1, 1, 2, 1, 2⟩] },
      chart_url := none, csv_filename := none,
      metadata := { metrics := { data_fetch_time := 1,
                                 chart_generation_time := 0,
                                 total_time := 3,
                                 data_points_processed := 1 },
                    interval := "5m", data_points := 1,
                    date_range := (⟨2025, 8, 25, 10, 0⟩,
                                   ⟨2025, 8, 26, 10, 0⟩) } }
    (by decide) (fun _ => .error ()) (fun _ => rfl)

/-- Claim C10: with generate_interactive = False the rendering collaborator
is never consulted (the result does not depend on it at all), the response
carries chart_url = None, csv_filename = None and a chart_generation_time of
exactly 0, and every other part of the response — chart data with candles
and price range, message, fetch time, total time, processed point counts,
metadata — is computed exactly as in the rendering-enabled run on the same
inputs. -/
theorem C10_data_only_variant (st : Settings)
    (source : String → FetchOutcome)
    (r1 r2 : RawSeries → Except Unit Unit) (durs : Durations)
    (req : ChartRequest) :
    generate_chart st source r1 durs req false
      = generate_chart st source r2 durs req false ∧
    (∀ resp, generate_chart st source r1 durs req false = .ok resp →
      resp.chart_url = none ∧ resp.csv_filename = none ∧
      resp.metadata.metrics.chart_generation_time = 0) ∧
    (∀ respF respT,
      generate_chart st source r1 durs req false = .ok respF →
      generate_chart st source r1 durs req true = .ok respT →
      respF.chart_data = respT.chart_data ∧
      respF.message = respT.message ∧
      respF.success = respT.success ∧
      respF.metadata.metrics.data_fetch_time
        = respT.metadata.metrics.data_fetch_time ∧
      respF.metadata.metrics.total_time = respT.metadata.metrics.total_time ∧
      respF.metadata.metrics.data_points_processed
        = respT.metadata.metrics.data_points_processed ∧
      respF.metadata.interval = respT.metadata.interval ∧
      respF.metadata.data_points = respT.metadata.data_points ∧
      respF.metadata.date_range = respT.metadata.date_range) := by
  have hshape : ∀ (r : RawSeries → Except Unit Unit) (gi : Bool),
      generate_chart st source r durs req gi
        = match parse_date_range st req.start_date_time
              req.end_date_time with
          | .error e =>
            .error (.chartGeneration ("Failed to generate chart: " ++ e.msg)
              ⟨req.pairs, req.start_date_time, req.end_date_time,
               req.interval⟩)
          | .ok (sdt, edt) =>
            match (fetch_market_data st source req.pairs sdt edt
                req.interval).2 with
            | .error e =>
              .error (.chartGeneration
                ("Failed to generate chart: " ++ e.msg)
                ⟨req.pairs, req.start_date_time, req.end_date_time,
                 req.interval⟩)
            | .ok df =>
              match process_chart_data df req.pairs req.interval with
              | .error e =>
                .error (.chartGeneration
                  ("Failed to generate chart: " ++ e.msg)
                  ⟨req.pairs, req.start_date_time, req.end_date_time,
                   req.interval⟩)
              | .ok chart_data =>
                .ok { message :=
                        "Chart created successfully for " ++ req.pairs,
                      chart_data := chart_data,
                      chart_url := if gi then
                          (generate_interactive_chart r st df req.pairs
                            sdt edt).1
                        else none,
                      csv_filename := if gi then
                          (generate_interactive_chart r st df req.pairs
                            sdt edt).2
                        else none,
                      metadata :=
                        { metrics :=
                            { data_fetch_time := durs.fetch,
                              chart_generation_time :=
                                if gi then durs.render else 0,
                              total_time := durs.total,
                              data_points_processed := df.length },
                          interval := req.interval,
                          data_points := df.length,
                          date_range := (sdt, edt) } } := by
    intro r gi
    unfold generate_chart
    rw [generate_chart_body_eq]
    rcases parse_date_range st req.start_date_time req.end_date_time
        with ⟨e⟩ | ⟨sdt, edt⟩
    · rfl
    · dsimp only
      rcases (fetch_market_data st source req.pairs sdt edt
          req.interval).2 with ⟨e⟩ | ⟨df⟩
      · rfl
      · dsimp only
        rcases process_chart_data df req.pairs req.interval
            with ⟨e⟩ | ⟨cdat⟩ <;> rfl
  refine ⟨?_, ?_, ?_⟩
  · rw [hshape r1 false, hshape r2 false]
    rcases parse_date_range st req.start_date_time req.end_date_time
        with ⟨e⟩ | ⟨sdt, edt⟩
    · rfl
    · dsimp only
      rcases (fetch_market_data st source req.pairs sdt edt
          req.interval).2 with ⟨e⟩ | ⟨df⟩
      · rfl
      · dsimp only
        rcases process_chart_data df req.pairs req.interval
            with ⟨e⟩ | ⟨cdat⟩
        · rfl
        · simp
  · intro resp hresp
    rw [hshape r1 false] at hresp
    rcases hp : parse_date_range st req.start_date_time req.end_date_time
        with ⟨e⟩ | ⟨sdt, edt⟩ <;> rw [hp] at hresp <;> dsimp only at hresp
    · exact Except.noConfusion hresp
    · rcases hf : (fetch_market_data st source req.pairs sdt edt
          req.interval).2 with ⟨e⟩ | ⟨df⟩ <;> rw [hf] at hresp <;>
        dsimp only at hresp
      · exact Except.noConfusion hresp
      · rcases hn : process_chart_data df req.pairs req.interval
            with ⟨e⟩ | ⟨cdat⟩ <;> rw [hn] at hresp <;> dsimp only at hresp
        · exact Except.noConfusion hresp
        · rw [Except.ok.injEq] at hresp
          rw [← hresp]
          exact ⟨rfl, rfl, rfl⟩
  · intro respF respT hF hT
    rw [hshape r1 false] at hF
    rw [hshape r1 true] at hT
    rcases hp : parse_date_range st req.start_date_time req.end_date_time
        with ⟨e⟩ | ⟨sdt, edt⟩ <;> rw [hp] at hF hT <;> dsimp only at hF hT
    · exact Except.noConfusion hF
    · rcases hf : (fetch_market_data st source req.pairs sdt edt
          req.interval).2 with ⟨e⟩ | ⟨df⟩ <;> rw [hf] at hF hT <;>
        dsimp only at hF hT
      · exact Except.noConfusion hF
      · rcases hn : process_chart_data df req.pairs req.interval
            with ⟨e⟩ | ⟨cdat⟩ <;> rw [hn] at hF hT <;> dsimp only at hF hT
        · exact Except.noConfusion hF
        · rw [Except.ok.injEq] at hF hT
          rw [← hF, ← hT]
          exact ⟨rfl, rfl, rfl, rfl, rfl, rfl, rfl, rfl, rfl⟩

/-- Witness for C10 at a concrete successful request: both variants succeed
and the data-only response has no URL, no CSV and zero render time. -/
theorem C10_witness :
    (⟨"EUR/USD", 1, 1, "5m", 1, ⟨1, 2⟩, [⟨1, 1, 2, 1, 2⟩]⟩ : ChartData)
        = (⟨"EUR/USD", 1, 1, "5m", 1, ⟨1, 2⟩, [⟨1, 1, 2, 1, 2⟩]⟩ : ChartData) ∧
    ((none : Option String) = none ∧ (none : Option String) = none ∧
      (0 : ℚ) = 0) := by
  have h := (C10_data_only_variant defaultSettings
    (fun s => if s = "EURUSD=X" then
        FetchOutcome.series [⟨1, some 1, some 2, some 1, some 2⟩]
      else FetchOutcome.err)
    (fun _ => .ok ()) (fun _ => .error ()) ⟨1, 2, 3⟩
    ⟨"EUR/USD", "2025-08-25 10:00 AM", "2025-08-26 10:00 AM", "5m"⟩).2.1
    { message := "Chart created successfully for EUR/USD",
      chart_data := ⟨"EUR/USD", 1, 1, "5m", 1, ⟨1, 2⟩, [⟨1, 1, 2, 1, 2⟩]⟩,
      chart_url := none, csv_filename := none,
      metadata := { metrics := ⟨1, 0, 3, 1⟩, interval := "5m",
                    data_points := 1,
                    date_range := (⟨2025, 8, 25, 10, 0⟩,
                                   ⟨2025, 8, 26, 10, 0⟩) } }
    (by decide)
  exact ⟨rfl, h⟩
